import Mathlib

/-!
Verification of the drainage design engine
(`src/lib/drainage-calculations.ts` of mobile-structura).

The TypeScript module is pure floating-point arithmetic plus ambient
`Math.random()` sampling.  We embed it shallowly over `ℝ`:

* every numeric value becomes a real number (the claims under study are
  about exact formulas, orderings and list structure, not about IEEE-754
  rounding);
* `Math.random()` is modelled by an explicit oracle `rnd : ℕ → ℝ`
  threaded through the generator, with the hypothesis
  `∀ k, 0 ≤ rnd k ∧ rnd k < 1` where a claim needs it;
* `Math.round x` (half toward `+∞`) becomes `⌊x + 1/2⌋`;
* JavaScript booleans computed from real comparisons become `Prop`s
  (with classical `if`s where the source branches on them);
* number formatting (`toFixed`, template strings) is abstracted by
  string-rendering parameters: no claim depends on the rendered text
  of a number.
-/

open Classical

/-- JavaScript `Math.round`: round half toward positive infinity. -/
noncomputable def jround (x : ℝ) : ℝ := (⌊x + 1 / 2⌋ : ℤ)

/-- `Math.round (x * 100) / 100` — two-decimal rounding used throughout the source. -/
noncomputable def round2 (x : ℝ) : ℝ := jround (x * 100) / 100

-- ──────────────────────────────────────────
-- Data model (the exported interfaces of the module)
-- ──────────────────────────────────────────

inductive SoilType | clay | loam | sandy | rocky
deriving DecidableEq

inductive LandUse | residential | commercial | industrial | mixed
deriving DecidableEq

inductive Material | PVC | RCC | HDPE | CI
deriving DecidableEq

inductive ManholeType | inlet | junction | outlet
deriving DecidableEq

inductive CheckStatus | pass | fail | warn
deriving DecidableEq

structure CatchmentParams where
  area : ℝ
  runoffCoeff : ℝ
  rainfallIntensity : ℝ
  slope : ℝ
  soilType : SoilType
  landUse : LandUse

structure PipeSegment where
  id : String
  fromNode : String
  toNode : String
  length : ℝ
  diameter : ℝ
  slope : ℝ
  material : Material
  velocity : ℝ
  flowRate : ℝ
  fillRatio : ℝ
  riskScore : ℝ

structure ManHole where
  id : String
  label : String
  x : ℝ
  y : ℝ
  invert : ℝ
  rim : ℝ
  type : ManholeType
  floodRisk : ℝ

/-- `nbcCompliant` is a JavaScript boolean computed from real comparisons;
we model it as a `Prop`. -/
structure DrainageNetwork where
  manholes : List ManHole
  pipes : List PipeSegment
  catchment : CatchmentParams
  peakRunoff : ℝ
  totalPipeLength : ℝ
  totalCost : ℝ
  floodRiskScore : ℝ
  nbcCompliant : Prop

structure OptimizationResult where
  network : DrainageNetwork
  savings : ℝ
  iterations : ℕ
  convergenceData : List ℝ
  warnings : List String
  recommendations : List String

structure CostBreakdown where
  pipeMaterial : ℝ
  manholes : ℝ
  excavation : ℝ
  labor : ℝ
  backfill : ℝ
  total : ℝ

structure ComplianceCheck where
  rule : String
  clause : String
  status : CheckStatus
  value : String
  limit : String
  note : String

-- ──────────────────────────────────────────
-- Static configuration tables
-- ──────────────────────────────────────────

/-- BENGALURU_RATES.  The diameter-keyed rate objects become association
lists whose keys appear in ascending order, which is exactly the order the
source works with after `Object.keys(...).map(Number).sort((a, b) => a - b)`. -/
structure BengaluruRates where
  cement_per_bag : ℝ
  labor_per_day : ℝ
  pvc_pipe_per_m : List (ℝ × ℝ)
  rcc_pipe_per_m : List (ℝ × ℝ)
  manhole_cost_shallow : ℝ
  manhole_cost_medium : ℝ
  manhole_cost_deep : ℝ
  excavation_per_m3 : ℝ
  backfill_per_m3 : ℝ
  sand_bedding_per_m3 : ℝ

def BENGALURU_RATES : BengaluruRates where
  cement_per_bag := 400
  labor_per_day := 800
  pvc_pipe_per_m :=
    [(150, 350), (200, 520), (250, 750), (300, 980),
     (375, 1450), (450, 2100), (525, 2900), (600, 3800),
     (750, 5500), (900, 7800), (1050, 10200), (1200, 13500)]
  rcc_pipe_per_m :=
    [(300, 1200), (375, 1650), (450, 2300), (525, 3100),
     (600, 4200), (750, 6000), (900, 8500), (1050, 11000), (1200, 15000)]
  manhole_cost_shallow := 18000
  manhole_cost_medium := 28000
  manhole_cost_deep := 45000
  excavation_per_m3 := 350
  backfill_per_m3 := 180
  sand_bedding_per_m3 := 450

/-- IMD_RAINFALL_DATA (the fields the core computations read;
`peak_month` and the ward multipliers are presentation-only and unused). -/
structure IMDRainfallData where
  monsoon_avg : ℝ
  extreme_event : ℝ
  annual_avg_mm : ℝ

def IMD_RAINFALL_DATA : IMDRainfallData := ⟨100, 150, 970⟩

structure NBCConstraints where
  min_velocity : ℝ
  max_velocity : ℝ
  max_fill_ratio : ℝ
  min_pipe_dia : ℝ
  max_pipe_dia : ℝ
  min_cover_depth : ℝ
  max_manhole_spacing : ℝ
  min_slope : ℝ
  max_slope : ℝ
  freeboard_factor : ℝ

def NBC_CONSTRAINTS : NBCConstraints :=
  ⟨0.6, 3.0, 0.80, 150, 1200, 0.9, 60, 0.5, 10, 1.25⟩

/-- Standard pipe diameters (mm) per IS:458. -/
def STANDARD_DIAMETERS : List ℝ :=
  [150, 200, 250, 300, 375, 450, 525, 600, 750, 900, 1050, 1200]

-- ──────────────────────────────────────────
-- Hydraulic formula library
-- ──────────────────────────────────────────

/-- Rational method: `Q = C * I * A / 360`. -/
noncomputable def calcPeakRunoff (params : CatchmentParams) : ℝ :=
  params.runoffCoeff * params.rainfallIntensity * params.area / 360

/-- Manning full-conduit flow at a given fill ratio.
`Math.acos`, `Math.sin` and `Math.pow` become `Real.arccos`, `Real.sin`
and real exponentiation. -/
noncomputable def manningsFlow (diameterMm slopePct : ℝ)
    (fillRatio : ℝ := 0.8) (roughness : ℝ := 0.013) : ℝ :=
  let d := diameterMm / 1000
  let S := slopePct / 100
  let theta := 2 * Real.arccos (1 - 2 * fillRatio)
  let A := d * d / 8 * (theta - Real.sin theta)
  let P := d / 2 * theta
  let R := A / P
  1 / roughness * A * R ^ ((2 : ℝ) / 3) * S ^ ((0.5 : ℝ))

/-- Manning velocity at a given fill ratio. -/
noncomputable def pipeVelocity (diameterMm slopePct : ℝ)
    (fillRatio : ℝ := 0.8) (roughness : ℝ := 0.013) : ℝ :=
  let d := diameterMm / 1000
  let S := slopePct / 100
  let theta := 2 * Real.arccos (1 - 2 * fillRatio)
  let A := d * d / 8 * (theta - Real.sin theta)
  let P := d / 2 * theta
  let R := A / P
  1 / roughness * R ^ ((2 : ℝ) / 3) * S ^ ((0.5 : ℝ))

/-- The `for (const dia of STANDARD_DIAMETERS)` loop of `selectPipeDiameter`,
with its early `return` modelled by structural recursion over the catalog. -/
noncomputable def selectLoop (requiredFlow slope : ℝ) : List ℝ → ℝ
  | [] => 1200
  | dia :: rest =>
    if manningsFlow dia slope ≥ requiredFlow ∧
        pipeVelocity dia slope ≥ NBC_CONSTRAINTS.min_velocity ∧
        pipeVelocity dia slope ≤ NBC_CONSTRAINTS.max_velocity then
      dia
    else
      selectLoop requiredFlow slope rest

/-- Select the minimum standard diameter that meets the required flow. -/
noncomputable def selectPipeDiameter (requiredFlow slopePct : ℝ) : ℝ :=
  selectLoop requiredFlow (max slopePct NBC_CONSTRAINTS.min_slope) STANDARD_DIAMETERS

/-- Select material from diameter and site conditions. -/
noncomputable def selectMaterial (diameter slope : ℝ) (soil : SoilType) : Material :=
  if diameter ≤ 300 ∧ slope < 5 then Material.PVC
  else if diameter ≤ 450 ∧ soil ≠ SoilType.rocky then Material.HDPE
  else if diameter > 450 then Material.RCC
  else Material.RCC

/-- Flood-risk score.  The source takes a `Partial<PipeSegment>`; the two
fields it reads arrive here as `Option`s with the source defaults. -/
noncomputable def calcFloodRisk (fillRatioIn velocityIn : Option ℝ)
    (catchment : CatchmentParams) (rainfall : ℝ) : ℝ :=
  let fr := fillRatioIn.getD 0.5
  let v := velocityIn.getD 1.0
  let score :=
    min 40 (fr * 50)
    + (if v < 0.6 then (15 : ℝ) else 0)
    + (if v > 2.5 then (10 : ℝ) else 0)
    + min 25 (rainfall / IMD_RAINFALL_DATA.extreme_event * 25)
    + catchment.runoffCoeff * 15
  min 100 (jround score)

-- ──────────────────────────────────────────
-- Network generator
-- ──────────────────────────────────────────

/-- `String(i).padStart(2, "0")`. -/
def padStart2 (s : String) : String :=
  if s.length < 2 then String.mk (List.replicate (2 - s.length) '0') ++ s else s

/-- Manhole identifier labels. -/
def mhId (i : ℕ) : String := "MH-" ++ padStart2 (toString i)

/-- Pipe identifier labels. -/
def pipeId (i : ℕ) : String := "P-" ++ padStart2 (toString (i + 1))

/-- The body of the pipe-generation loop of `generateOptimizedNetwork`
(iteration `i`, for `0 ≤ i < numPipes`).  The randomness oracle `rnd` is
indexed so that the manhole loop consumes indices `< 3 * (numPipes + 1)`
and pipe `i` draws its slope jitter and length sample from two fresh
indices after that. -/
noncomputable def mkPipe (catchment : CatchmentParams) (numPipes : ℕ)
    (peakRunoff : ℝ) (rnd : ℕ → ℝ) (i : ℕ) : PipeSegment :=
  let base := 3 * (numPipes + 1)
  let segmentFlow := peakRunoff * (1 - (i : ℝ) * 0.05)
  let slope := max catchment.slope NBC_CONSTRAINTS.min_slope + rnd (base + 2 * i) * 0.5
  let diameter := selectPipeDiameter segmentFlow slope
  let velocity := pipeVelocity diameter slope
  let flowRate := manningsFlow diameter slope
  let fillRatio := min 0.79 (segmentFlow / flowRate)
  { id := pipeId i
    fromNode := mhId i
    toNode := mhId (i + 1)
    length := 30 + rnd (base + 2 * i + 1) * 50
    diameter := diameter
    slope := slope
    material := selectMaterial diameter slope catchment.soilType
    velocity := round2 velocity
    flowRate := jround (flowRate * 10000) / 10000
    fillRatio := round2 fillRatio
    riskScore := calcFloodRisk (some fillRatio) (some velocity) catchment catchment.rainfallIntensity }

/-- The body of the manhole-generation loop of `generateOptimizedNetwork`
(iteration `i`, for `0 ≤ i ≤ numPipes`).  The source first creates manholes
with `floodRisk = 0` and then, in the pipe loop, assigns
`manholes[i].floodRisk = riskScore` and `manholes[i+1].floodRisk = riskScore`;
the net effect of those sequential writes is that manhole `i` ends up
holding the risk score of pipe `min i (numPipes - 1)` (and keeps `0` when
there are no pipes), which is the value recorded here directly. -/
noncomputable def mkManhole (catchment : CatchmentParams) (numPipes : ℕ)
    (peakRunoff : ℝ) (rnd : ℕ → ℝ) (i : ℕ) : ManHole :=
  { id := mhId i
    label := mhId i
    x := 100 + ((i % 4 : ℕ) : ℝ) * 160 + rnd (3 * i) * 40
    y := 100 + ((i / 4 : ℕ) : ℝ) * 140 + rnd (3 * i + 1) * 30
    invert := 900 - (i : ℝ) * 1.2 - rnd (3 * i + 2) * 0.5
    rim := 903 - (i : ℝ) * 1.0
    type := if i = 0 then ManholeType.inlet
            else if i = numPipes then ManholeType.outlet
            else ManholeType.junction
    floodRisk := if numPipes = 0 then 0
                 else (mkPipe catchment numPipes peakRunoff rnd (min i (numPipes - 1))).riskScore }

-- ──────────────────────────────────────────
-- Cost estimator
-- ──────────────────────────────────────────

/-- `keys.find((k) => k >= dia)` over an ascending diameter-keyed rate list. -/
noncomputable def rateFind : List (ℝ × ℝ) → ℝ → Option ℝ
  | [], _ => none
  | kv :: rest, dia => if dia ≤ kv.1 then some kv.2 else rateFind rest dia

/-- Rate lookup of the cost functions: first key `≥ diameter`, else the last
key of the table; the source's `?? 2000` default guards a lookup that cannot
miss once a key was chosen, and fires only on an empty table. -/
noncomputable def rateFor (pairs : List (ℝ × ℝ)) (dia : ℝ) : ℝ :=
  (rateFind pairs dia).getD ((pairs.getLast?.map Prod.snd).getD 2000)

/-- Trench volume allowance of a pipe:
`length * 0.8 * (diameter / 1000 + 0.6)`. -/
noncomputable def trenchVol (p : PipeSegment) : ℝ :=
  p.length * 0.8 * (p.diameter / 1000 + 0.6)

/-- Rate table serving a pipe: RCC pipes price from the RCC table, every
other material from the PVC table. -/
noncomputable def rateMapFor (p : PipeSegment) : List (ℝ × ℝ) :=
  if p.material = Material.RCC then BENGALURU_RATES.rcc_pipe_per_m
  else BENGALURU_RATES.pvc_pipe_per_m

/-- Per-pipe cost inside `estimateNetworkCost`. -/
noncomputable def pipeCost (p : PipeSegment) : ℝ :=
  rateFor (rateMapFor p) p.diameter * p.length
  + trenchVol p * (BENGALURU_RATES.excavation_per_m3 + BENGALURU_RATES.backfill_per_m3)
  + p.length * BENGALURU_RATES.labor_per_day * 0.5

/-- Per-manhole cost inside `estimateNetworkCost`: depth class from the
rim-invert difference. -/
noncomputable def manholeCost (mh : ManHole) : ℝ :=
  let depth := mh.rim - mh.invert
  if depth < 1.5 then BENGALURU_RATES.manhole_cost_shallow
  else if depth < 3 then BENGALURU_RATES.manhole_cost_medium
  else BENGALURU_RATES.manhole_cost_deep

/-- Total network cost in absolute rupees. -/
noncomputable def estimateNetworkCost (pipes : List PipeSegment) (manholes : List ManHole) : ℝ :=
  (pipes.map pipeCost).sum + (manholes.map manholeCost).sum

/-- Naive baseline cost. -/
noncomputable def estimateNaiveCost (catchment : CatchmentParams) (numPipes : ℕ) : ℝ :=
  (catchment.area * 1500 + (numPipes : ℝ) * 3.5) * 100000 / 100000

/-- `generateOptimizedNetwork`. -/
noncomputable def generateOptimizedNetwork (catchment : CatchmentParams)
    (numPipes : ℕ) (peakRunoff : ℝ) (rnd : ℕ → ℝ) : DrainageNetwork :=
  let manholes := (List.range (numPipes + 1)).map (mkManhole catchment numPipes peakRunoff rnd)
  let pipes := (List.range numPipes).map (mkPipe catchment numPipes peakRunoff rnd)
  let totalPipeLength := (pipes.map PipeSegment.length).sum
  let totalCost := estimateNetworkCost pipes manholes / 100000
  { manholes := manholes
    pipes := pipes
    catchment := catchment
    peakRunoff := jround (peakRunoff * 1000) / 1000
    totalPipeLength := jround totalPipeLength
    totalCost := jround (totalCost * 10) / 10
    floodRiskScore := jround ((pipes.map PipeSegment.riskScore).sum / (numPipes : ℝ))
    nbcCompliant := ∀ p ∈ pipes,
      p.velocity ≥ NBC_CONSTRAINTS.min_velocity ∧
      p.velocity ≤ NBC_CONSTRAINTS.max_velocity ∧
      p.fillRatio ≤ NBC_CONSTRAINTS.max_fill_ratio ∧
      p.diameter ≥ NBC_CONSTRAINTS.min_pipe_dia }

-- ──────────────────────────────────────────
-- Genetic-algorithm-style optimizer
-- ──────────────────────────────────────────

/-- Loop state of `runGeneticOptimizer`: `bestCost = none` models the
initial `Infinity`, `bestNet = none` the initial `null`. -/
structure GAState where
  bestCost : Option ℝ
  bestNet : Option DrainageNetwork
  conv : List ℝ

/-- One generation of the optimizer loop.  `gnoise gen` is the
`Math.random()` sample of generation `gen`; `gor gen` is the fresh
randomness stream consumed by a network regeneration triggered in
generation `gen`.  A finite candidate always undercuts `Infinity`, so the
`none` branch always retains the candidate. -/
noncomputable def gaStep (catchment : CatchmentParams) (numPipes : ℕ)
    (peakRunoff : ℝ) (gnoise : ℕ → ℝ) (gor : ℕ → ℕ → ℝ)
    (st : GAState) (gen : ℕ) : GAState :=
  let noise := gnoise gen * 0.05 - 0.025
  let improvementRate := Real.exp (-(gen : ℝ) / 15)
  match st.bestCost with
  | none =>
    let candidateCost := (peakRunoff * 800 + (numPipes : ℝ) * 2.5) * (1 + noise + improvementRate)
    ⟨some candidateCost,
     some (generateOptimizedNetwork catchment numPipes peakRunoff (gor gen)),
     st.conv ++ [max 0.5 candidateCost]⟩
  | some bc =>
    let candidateCost := bc * (1 - improvementRate * 0.03 + noise)
    if candidateCost < bc then
      ⟨some candidateCost,
       some (generateOptimizedNetwork catchment numPipes peakRunoff (gor gen)),
       st.conv ++ [max 0.5 candidateCost]⟩
    else
      ⟨st.bestCost, st.bestNet, st.conv ++ [max 0.5 candidateCost]⟩

/-- Rendering of a material enum value, as JavaScript string interpolation does. -/
def materialName : Material → String
  | Material.PVC => "PVC"
  | Material.RCC => "RCC"
  | Material.HDPE => "HDPE"
  | Material.CI => "CI"

/-- `runGeneticOptimizer`.  The fallback `bestNetwork ?? generateOptimizedNetwork(...)`
consumes the fresh stream `gor generations`, an index no loop iteration uses. -/
noncomputable def runGeneticOptimizer (catchment : CatchmentParams)
    (numPipes : ℕ) (generations : ℕ) (gnoise : ℕ → ℝ) (gor : ℕ → ℕ → ℝ) :
    OptimizationResult :=
  let peakRunoff := calcPeakRunoff catchment
  let final := (List.range generations).foldl
    (gaStep catchment numPipes peakRunoff gnoise gor) ⟨none, none, []⟩
  let network := final.bestNet.getD
    (generateOptimizedNetwork catchment numPipes peakRunoff (gor generations))
  let naiveCost := estimateNaiveCost catchment numPipes
  let savings := jround ((naiveCost - network.totalCost) / naiveCost * 100)
  { network := network
    savings := max 0 savings
    iterations := generations
    convergenceData := final.conv
    warnings :=
      (if catchment.rainfallIntensity > 120 then ["Extreme rainfall intensity – consider detention pond."] else [])
      ++ (if catchment.runoffCoeff > 0.75 then ["High imperviousness – bioretention cells recommended."] else [])
      ++ (if catchment.slope < 0.5 then ["Flat terrain – check minimum self-cleansing velocity."] else [])
    recommendations :=
      ["Use " ++ materialName ((network.pipes.head?.map PipeSegment.material).getD Material.RCC)
         ++ " pipes for primary trunk.",
       "Install flap gates at outlet to prevent backflow during peak monsoon."]
      ++ (if catchment.area > 20 then ["Consider retention basin for catchment >20 ha."] else []) }

-- ──────────────────────────────────────────
-- NBC compliance rule engine
-- ──────────────────────────────────────────

/-- `Math.max(...)` over the list of aggregate statistics.  For a nonempty
list this is the exact maximum; the source's spread over an empty pipe list
would give `-Infinity` (and `NaN` means downstream), which `ℝ` cannot
represent — no theorem below reads these aggregate-dependent fields. -/
noncomputable def listMax : List ℝ → ℝ
  | [] => 0
  | x :: xs => xs.foldl max x

/-- `Math.min(...)`, same remarks as `listMax`. -/
noncomputable def listMin : List ℝ → ℝ
  | [] => 0
  | x :: xs => xs.foldl min x

/-- `runNBCCompliance`.  `toFixed x n` renders `x.toFixed(n)` and
`numStr x` renders JavaScript template interpolation of a number; both are
abstract rendering parameters (no claim depends on the rendered digits). -/
noncomputable def runNBCCompliance (toFixed : ℝ → ℕ → String) (numStr : ℝ → String)
    (network : DrainageNetwork) : List ComplianceCheck :=
  let pipes := network.pipes
  let avgVelocity := (pipes.map PipeSegment.velocity).sum / (pipes.length : ℝ)
  let maxFill := listMax (pipes.map PipeSegment.fillRatio)
  let minDia := listMin (pipes.map PipeSegment.diameter)
  let avgSlope := (pipes.map PipeSegment.slope).sum / (pipes.length : ℝ)
  [ { rule := "Self-Cleansing Velocity"
      clause := "NBC 2016 Part 9 Sec 4.3.1"
      status := if avgVelocity ≥ 0.6 then CheckStatus.pass else CheckStatus.fail
      value := toFixed avgVelocity 2 ++ " m/s"
      limit := "≥ 0.6 m/s"
      note := if avgVelocity < 0.6 then "Increase slope to prevent sedimentation."
              else "Adequate velocity maintained." },
    { rule := "Maximum Velocity"
      clause := "NBC 2016 Part 9 Sec 4.3.2"
      status := if avgVelocity ≤ 3.0 then CheckStatus.pass else CheckStatus.fail
      value := toFixed avgVelocity 2 ++ " m/s"
      limit := "≤ 3.0 m/s"
      note := if avgVelocity > 3.0 then "Risk of erosion – reduce slope or use larger diameter."
              else "Within safe limits." },
    { rule := "Pipe Fill Ratio"
      clause := "NBC 2016 Part 9 Sec 4.2.5"
      status := if maxFill ≤ 0.80 then CheckStatus.pass else CheckStatus.fail
      value := toFixed (maxFill * 100) 0 ++ "%"
      limit := "≤ 80%"
      note := if maxFill > 0.8 then "Upsize pipe diameter to maintain freeboard."
              else "Adequate freeboard." },
    { rule := "Minimum Pipe Diameter"
      clause := "NBC 2016 Part 9 Sec 4.1.3 / IS:3114"
      status := if minDia ≥ 150 then CheckStatus.pass else CheckStatus.fail
      value := numStr minDia ++ " mm"
      limit := "≥ 150 mm"
      note := if minDia < 150 then "Minimum 150mm for maintainability." else "Compliant." },
    { rule := "Minimum Longitudinal Slope"
      clause := "BBMP Drainage Manual Sec 3.2"
      status := if avgSlope ≥ 0.5 then CheckStatus.pass else CheckStatus.warn
      value := toFixed avgSlope 2 ++ "%"
      limit := "≥ 0.5%"
      note := if avgSlope < 0.5 then "Flat slope – verify pumping provisions."
              else "Gravity flow achievable." },
    { rule := "Manhole Spacing"
      clause := "IS:1742 / NBC Part 9"
      status := CheckStatus.pass
      value := "≤ 60 m"
      limit := "≤ 60 m (straight), ≤ 45 m (bend)"
      note := "Adequate access for maintenance." },
    { rule := "Freeboard Factor"
      clause := "NBC 2016 Part 9 Sec 5.1"
      status := if network.floodRiskScore < 60 then CheckStatus.pass else CheckStatus.warn
      value := "Risk Score: " ++ numStr network.floodRiskScore
      limit := "< 60 (Low Risk)"
      note := if network.floodRiskScore ≥ 60 then "Consider retention basin or upsizing trunk sewer."
              else "Flood risk within acceptable limits." },
    { rule := "Seismic Zone III Provisions"
      clause := "IS:1893 / NBC Annex-E"
      status := if ∀ p ∈ network.pipes, p.material ≠ Material.CI then CheckStatus.pass
                else CheckStatus.warn
      value := materialName ((network.pipes.head?.map PipeSegment.material).getD Material.RCC)
      limit := "Flexible joints required"
      note := "Bengaluru falls in Seismic Zone II-III – use flexible couplings at structures." },
    { rule := "Environmental Clearance"
      clause := "Karnataka EP Act / BBMP"
      status := if network.catchment.area > 20 then CheckStatus.warn else CheckStatus.pass
      value := numStr network.catchment.area ++ " ha"
      limit := "EIA required if >20 ha"
      note := if network.catchment.area > 20 then "Obtain Environmental Impact Assessment approval."
              else "No EIA required." } ]

-- ──────────────────────────────────────────
-- Cost breakdown
-- ──────────────────────────────────────────

/-- Pipe-material component of `getCostBreakdown` (pre-rounding, rupees). -/
noncomputable def breakdownPipeMaterial (network : DrainageNetwork) : ℝ :=
  (network.pipes.map (fun p => rateFor (rateMapFor p) p.diameter * p.length)).sum

/-- Excavation component of `getCostBreakdown` (pre-rounding, rupees). -/
noncomputable def breakdownExcavation (network : DrainageNetwork) : ℝ :=
  (network.pipes.map (fun p => trenchVol p * BENGALURU_RATES.excavation_per_m3)).sum

/-- Backfill component: a flat 50 percent of the excavation component. -/
noncomputable def breakdownBackfill (network : DrainageNetwork) : ℝ :=
  breakdownExcavation network * 0.5

/-- Labor component of `getCostBreakdown` (pre-rounding, rupees). -/
noncomputable def breakdownLabor (network : DrainageNetwork) : ℝ :=
  (network.pipes.map (fun p => p.length * BENGALURU_RATES.labor_per_day * 0.5)).sum

/-- Manhole component of `getCostBreakdown`: every manhole priced at the
flat `medium` rate. -/
noncomputable def breakdownManholes (network : DrainageNetwork) : ℝ :=
  (network.manholes.length : ℝ) * BENGALURU_RATES.manhole_cost_medium

/-- The `totalRs` accumulator of `getCostBreakdown` (pre-rounding, rupees). -/
noncomputable def breakdownTotalRs (network : DrainageNetwork) : ℝ :=
  breakdownPipeMaterial network + breakdownExcavation network
  + breakdownBackfill network + breakdownLabor network + breakdownManholes network

/-- `getCostBreakdown`: each component converted to lakhs and rounded to one
decimal place. -/
noncomputable def getCostBreakdown (network : DrainageNetwork) : CostBreakdown :=
  { pipeMaterial := jround (breakdownPipeMaterial network / 100000 * 10) / 10
    manholes := jround (breakdownManholes network / 100000 * 10) / 10
    excavation := jround (breakdownExcavation network / 100000 * 10) / 10
    labor := jround (breakdownLabor network / 100000 * 10) / 10
    backfill := jround (breakdownBackfill network / 100000 * 10) / 10
    total := jround (breakdownTotalRs network / 100000 * 10) / 10 }

-- ──────────────────────────────────────────
-- Concrete sample inputs used by witnesses and counterexamples
-- ──────────────────────────────────────────

/-- The spec's reference scenario catchment (18.5 ha, C = 0.65, 100 mm/hr,
1.2 percent slope, clay, residential). -/
def sampleCatchment : CatchmentParams :=
  ⟨18.5, 0.65, 100, 1.2, SoilType.clay, LandUse.residential⟩

/-- A concrete 10 m PVC pipe of diameter 300 mm. -/
noncomputable def cexPipe : PipeSegment :=
  { id := "P-01", fromNode := "MH-00", toNode := "MH-01", length := 10,
    diameter := 300, slope := 1, material := Material.PVC, velocity := 1,
    flowRate := 1, fillRatio := 0.5, riskScore := 0 }

/-- A concrete manhole of depth 10 m (deep cost class). -/
noncomputable def cexManhole : ManHole :=
  { id := "MH-00", label := "MH-00", x := 0, y := 0, invert := 900, rim := 910,
    type := ManholeType.junction, floodRisk := 0 }

/-- A concrete network: one pipe, ten deep manholes. -/
noncomputable def cexNetwork : DrainageNetwork :=
  { manholes := List.replicate 10 cexManhole, pipes := [cexPipe],
    catchment := sampleCatchment, peakRunoff := 0, totalPipeLength := 10,
    totalCost := 0, floodRiskScore := 0, nbcCompliant := True }

/-- A large valid catchment (peak runoff `0.9 * 100 * 50 / 360 = 12.5` m³/s)
driving the fill-ratio sign failure at 22 pipes. -/
def c5Catchment : CatchmentParams :=
  ⟨50, 0.9, 100, 0.5, SoilType.loam, LandUse.residential⟩

-- ──────────────────────────────────────────
-- Generic helper lemmas
-- ──────────────────────────────────────────

theorem jround_nonneg {x : ℝ} (h : 0 ≤ x) : 0 ≤ jround x := by
  have : (0 : ℤ) ≤ ⌊x + 1 / 2⌋ := Int.le_floor.mpr (by push_cast; linarith)
  unfold jround
  exact_mod_cast this

theorem jround_le_add_half (x : ℝ) : jround x ≤ x + 1 / 2 := by
  unfold jround
  exact Int.floor_le _

theorem jround_le_of_le {x : ℝ} {z : ℤ} (h : x ≤ z) : jround x ≤ z := by
  have : ⌊x + 1 / 2⌋ ≤ ⌊(z : ℝ) + 1 / 2⌋ := Int.floor_le_floor (by linarith)
  have h2 : ⌊(z : ℝ) + 1 / 2⌋ = z := by
    rw [Int.floor_eq_iff] <;> constructor <;> push_cast <;> linarith
  unfold jround
  exact_mod_cast h2 ▸ this

theorem round2_nonneg {x : ℝ} (h : 0 ≤ x) : 0 ≤ round2 x := by
  have := jround_nonneg (by linarith : (0 : ℝ) ≤ x * 100)
  unfold round2
  linarith

theorem round2_le_079 {x : ℝ} (h : x ≤ 0.79) : round2 x ≤ 0.79 := by
  have : jround (x * 100) ≤ ((79 : ℤ) : ℝ) := by
    exact_mod_cast jround_le_of_le (z := 79) (by push_cast; linarith)
  unfold round2
  push_cast at this
  linarith

-- ──────────────────────────────────────────
-- C8 — rational-method peak runoff
-- ──────────────────────────────────────────

/-- C8: `calcPeakRunoff` is exactly `C * I * A / 360`; for valid parameters
it is nonnegative, it is linear in area and in rainfall intensity (scaling
either input by `k` scales the result by `k`), and zero area gives zero. -/
theorem claim_C8_peakRunoff (ps : CatchmentParams) (k : ℝ)
    (h1 : 0 < ps.area) (h2 : 0 ≤ ps.runoffCoeff) (h3 : ps.runoffCoeff ≤ 1)
    (h4 : 0 < ps.rainfallIntensity) :
    calcPeakRunoff ps = ps.runoffCoeff * ps.rainfallIntensity * ps.area / 360 ∧
    0 ≤ calcPeakRunoff ps ∧
    calcPeakRunoff { ps with area := k * ps.area } = k * calcPeakRunoff ps ∧
    calcPeakRunoff { ps with rainfallIntensity := k * ps.rainfallIntensity }
      = k * calcPeakRunoff ps ∧
    calcPeakRunoff { ps with area := 0 } = 0 := by
  refine ⟨rfl, ?_, ?_, ?_, ?_⟩
  · exact div_nonneg (mul_nonneg (mul_nonneg h2 h4.le) h1.le) (by norm_num)
  · simp only [calcPeakRunoff]; ring
  · simp only [calcPeakRunoff]; ring
  · simp only [calcPeakRunoff]; ring

theorem claim_C8_peakRunoff_witness : 0 ≤ calcPeakRunoff sampleCatchment :=
  (claim_C8_peakRunoff sampleCatchment 2
    (by norm_num [sampleCatchment]) (by norm_num [sampleCatchment])
    (by norm_num [sampleCatchment]) (by norm_num [sampleCatchment])).2.1

-- ──────────────────────────────────────────
-- C1 — the compliance flag of a generated network
-- ──────────────────────────────────────────

/-- C1: on every network produced by `generateOptimizedNetwork`, the
`nbcCompliant` flag holds exactly when every stored pipe record has velocity
in [0.6, 3.0], fill ratio at most 0.80 and diameter at least 150. -/
theorem claim_C1_nbcCompliant_iff (catchment : CatchmentParams) (numPipes : ℕ)
    (peakRunoff : ℝ) (rnd : ℕ → ℝ) :
    (generateOptimizedNetwork catchment numPipes peakRunoff rnd).nbcCompliant ↔
    ∀ p ∈ (generateOptimizedNetwork catchment numPipes peakRunoff rnd).pipes,
      0.6 ≤ p.velocity ∧ p.velocity ≤ 3.0 ∧ p.fillRatio ≤ 0.80 ∧ 150 ≤ p.diameter :=
  Iff.rfl

theorem claim_C1_nbcCompliant_iff_witness :
    (generateOptimizedNetwork sampleCatchment 1 0 (fun _ => 0)).nbcCompliant ↔
    ∀ p ∈ (generateOptimizedNetwork sampleCatchment 1 0 (fun _ => 0)).pipes,
      0.6 ≤ p.velocity ∧ p.velocity ≤ 3.0 ∧ p.fillRatio ≤ 0.80 ∧ 150 ≤ p.diameter :=
  claim_C1_nbcCompliant_iff sampleCatchment 1 0 (fun _ => 0)

-- ──────────────────────────────────────────
-- C7 — the compliance battery is fixed and order-stable
-- ──────────────────────────────────────────

/-- C7: `runNBCCompliance` returns exactly 9 checks for every network, in a
fixed stable order of rule names, with no short-circuiting on failure. -/
theorem claim_C7_compliance_battery (toFixed : ℝ → ℕ → String)
    (numStr : ℝ → String) (network : DrainageNetwork) :
    (runNBCCompliance toFixed numStr network).map ComplianceCheck.rule =
      ["Self-Cleansing Velocity", "Maximum Velocity", "Pipe Fill Ratio",
       "Minimum Pipe Diameter", "Minimum Longitudinal Slope", "Manhole Spacing",
       "Freeboard Factor", "Seismic Zone III Provisions", "Environmental Clearance"] ∧
    (runNBCCompliance toFixed numStr network).length = 9 :=
  ⟨rfl, rfl⟩

-- ──────────────────────────────────────────
-- C2 — diameter selection scans the catalog
-- ──────────────────────────────────────────

theorem selectLoop_eq_find (requiredFlow slope : ℝ) (l : List ℝ) :
    selectLoop requiredFlow slope l =
      (l.find? (fun dia => decide (manningsFlow dia slope ≥ requiredFlow ∧
        pipeVelocity dia slope ≥ NBC_CONSTRAINTS.min_velocity ∧
        pipeVelocity dia slope ≤ NBC_CONSTRAINTS.max_velocity))).getD 1200 := by
  induction l with
  | nil => rfl
  | cons d rest ih =>
    by_cases h : manningsFlow d slope ≥ requiredFlow ∧
        pipeVelocity d slope ≥ NBC_CONSTRAINTS.min_velocity ∧
        pipeVelocity d slope ≤ NBC_CONSTRAINTS.max_velocity
    · simp [selectLoop, List.find?, h]
    · simp [selectLoop, List.find?, h, ih]

theorem selectLoop_mem (requiredFlow slope : ℝ) (l : List ℝ) :
    selectLoop requiredFlow slope l = 1200 ∨ selectLoop requiredFlow slope l ∈ l := by
  induction l with
  | nil => exact Or.inl rfl
  | cons d rest ih =>
    by_cases h : manningsFlow d slope ≥ requiredFlow ∧
        pipeVelocity d slope ≥ NBC_CONSTRAINTS.min_velocity ∧
        pipeVelocity d slope ≤ NBC_CONSTRAINTS.max_velocity
    · right; simp [selectLoop, h]
    · rcases ih with h1 | h1
      · left; simpa [selectLoop, h] using h1
      · right; simp [selectLoop, h, h1]

theorem selectPipeDiameter_mem (requiredFlow slopePct : ℝ) :
    selectPipeDiameter requiredFlow slopePct ∈ STANDARD_DIAMETERS := by
  rcases selectLoop_mem requiredFlow (max slopePct NBC_CONSTRAINTS.min_slope)
      STANDARD_DIAMETERS with h | h
  · rw [selectPipeDiameter, h]; simp [STANDARD_DIAMETERS]
  · exact h

theorem standard_diameter_bounds :
    ∀ d ∈ STANDARD_DIAMETERS, (150 : ℝ) ≤ d ∧ d ≤ 1200 := by
  intro d hd
  fin_cases hd <;> norm_num

/-- C2: `selectPipeDiameter` floors the slope at 0.5 percent, returns the
first catalog diameter (in the catalog's ascending order) whose full-fill
capacity covers the required flow with velocity inside [0.6, 3.0], falls
back to 1200 when none qualifies, and therefore always returns a member of
the standard catalog. -/
theorem claim_C2_selectPipeDiameter (requiredFlow slopePct : ℝ) :
    selectPipeDiameter requiredFlow slopePct =
      (STANDARD_DIAMETERS.find? (fun dia =>
        decide (manningsFlow dia (max slopePct 0.5) ≥ requiredFlow ∧
          pipeVelocity dia (max slopePct 0.5) ≥ 0.6 ∧
          pipeVelocity dia (max slopePct 0.5) ≤ 3.0))).getD 1200 ∧
    selectPipeDiameter requiredFlow slopePct ∈ STANDARD_DIAMETERS :=
  ⟨selectLoop_eq_find requiredFlow (max slopePct NBC_CONSTRAINTS.min_slope) STANDARD_DIAMETERS,
   selectPipeDiameter_mem requiredFlow slopePct⟩

-- ──────────────────────────────────────────
-- Manning geometry facts shared by several claims
-- ──────────────────────────────────────────

theorem theta_pos {f : ℝ} (hf : 0 < f) : 0 < 2 * Real.arccos (1 - 2 * f) := by
  have := Real.arccos_pos.mpr (by linarith : 1 - 2 * f < 1)
  linarith

theorem theta_sub_sin_pos {f : ℝ} (hf : 0 < f) :
    0 < 2 * Real.arccos (1 - 2 * f) - Real.sin (2 * Real.arccos (1 - 2 * f)) :=
  sub_pos.mpr (Real.sin_lt (theta_pos hf))

/-- The velocity form of Manning's equation is strictly positive for a
positive diameter, positive slope, fill strictly inside (0, 1) and a
positive roughness. -/
theorem pipeVelocity_pos {dm s f n : ℝ} (hd : 0 < dm) (hs : 0 < s)
    (hf : 0 < f) (hn : 0 < n) : 0 < pipeVelocity dm s f n := by
  have hθ := theta_pos hf
  have hA : 0 < dm / 1000 * (dm / 1000) / 8 *
      (2 * Real.arccos (1 - 2 * f) - Real.sin (2 * Real.arccos (1 - 2 * f))) :=
    mul_pos (by positivity) (theta_sub_sin_pos hf)
  have hP : 0 < dm / 1000 / 2 * (2 * Real.arccos (1 - 2 * f)) :=
    mul_pos (by positivity) hθ
  simp only [pipeVelocity]
  have hR := div_pos hA hP
  have h1 : (0:ℝ) < 1 / n := by positivity
  have h2 := Real.rpow_pos_of_pos hR ((2:ℝ)/3)
  have h3 := Real.rpow_pos_of_pos (by positivity : (0:ℝ) < s / 100) ((0.5:ℝ))
  exact mul_pos (mul_pos h1 h2) h3

/-- The flow form of Manning's equation is strictly positive under the same
conditions. -/
theorem manningsFlow_pos {dm s f n : ℝ} (hd : 0 < dm) (hs : 0 < s)
    (hf : 0 < f) (hn : 0 < n) : 0 < manningsFlow dm s f n := by
  have hθ := theta_pos hf
  have hA : 0 < dm / 1000 * (dm / 1000) / 8 *
      (2 * Real.arccos (1 - 2 * f) - Real.sin (2 * Real.arccos (1 - 2 * f))) :=
    mul_pos (by positivity) (theta_sub_sin_pos hf)
  have hP : 0 < dm / 1000 / 2 * (2 * Real.arccos (1 - 2 * f)) :=
    mul_pos (by positivity) hθ
  simp only [manningsFlow]
  have hR := div_pos hA hP
  have h1 : (0:ℝ) < 1 / n := by positivity
  have h2 := Real.rpow_pos_of_pos hR ((2:ℝ)/3)
  have h3 := Real.rpow_pos_of_pos (by positivity : (0:ℝ) < s / 100) ((0.5:ℝ))
  exact mul_pos (mul_pos (mul_pos h1 hA) h2) h3

-- ──────────────────────────────────────────
-- C9 — velocity is monotone in slope, with a square-root law
-- ──────────────────────────────────────────

/-- C9: holding diameter, fill ratio and roughness fixed, `pipeVelocity` is
monotone non-decreasing in the slope, and doubling the slope multiplies the
velocity by exactly the square root of two. -/
theorem claim_C9_velocity_slope (d f n s1 s2 : ℝ) (hd : 0 < d) (hf0 : 0 < f)
    (hf1 : f < 1) (hn : 0 < n) (hs1 : 0 < s1) (hle : s1 ≤ s2) :
    pipeVelocity d s1 f n ≤ pipeVelocity d s2 f n ∧
    pipeVelocity d (2 * s1) f n = Real.sqrt 2 * pipeVelocity d s1 f n := by
  have hθ := theta_pos hf0
  have hA : 0 < d / 1000 * (d / 1000) / 8 *
      (2 * Real.arccos (1 - 2 * f) - Real.sin (2 * Real.arccos (1 - 2 * f))) :=
    mul_pos (by positivity) (theta_sub_sin_pos hf0)
  have hP : 0 < d / 1000 / 2 * (2 * Real.arccos (1 - 2 * f)) :=
    mul_pos (by positivity) hθ
  have hC : (0:ℝ) ≤ 1 / n * ((d / 1000 * (d / 1000) / 8 *
      (2 * Real.arccos (1 - 2 * f) - Real.sin (2 * Real.arccos (1 - 2 * f)))) /
      (d / 1000 / 2 * (2 * Real.arccos (1 - 2 * f)))) ^ ((2:ℝ)/3) :=
    mul_nonneg (by positivity) (Real.rpow_nonneg (div_pos hA hP).le _)
  constructor
  · simp only [pipeVelocity]
    exact mul_le_mul_of_nonneg_left
      (Real.rpow_le_rpow (by positivity) (by linarith) (by norm_num)) hC
  · have h2 : Real.sqrt 2 = (2:ℝ) ^ ((0.5:ℝ)) := by
      rw [Real.sqrt_eq_rpow]; norm_num
    simp only [pipeVelocity]
    rw [show (2 * s1 / 100 : ℝ) = 2 * (s1 / 100) from by ring,
      Real.mul_rpow (by norm_num) (by positivity), h2]
    ring

theorem claim_C9_velocity_slope_witness :
    pipeVelocity 150 2 0.8 0.013 ≤ pipeVelocity 150 3 0.8 0.013 :=
  (claim_C9_velocity_slope 150 0.8 0.013 2 3 (by norm_num) (by norm_num)
    (by norm_num) (by norm_num) (by norm_num) (by norm_num)).1

-- ──────────────────────────────────────────
-- C4 — generated networks are a strictly descending linear chain
-- ──────────────────────────────────────────

theorem map_range_dropLast {α : Type} (n : ℕ) (g : ℕ → α) :
    ((List.range (n + 1)).map g).dropLast = (List.range n).map g := by
  rw [List.range_succ, List.map_append]
  simp

theorem map_range_tail {α : Type} (n : ℕ) (g : ℕ → α) :
    ((List.range (n + 1)).map g).tail = (List.range n).map (fun i => g (i + 1)) := by
  rw [List.range_succ_eq_map n]
  simp [List.map_map, Function.comp]

/-- C4: a generated network has `numPipes + 1` manholes and `numPipes`
pipes; pipe `i` runs from manhole `i` to manhole `i + 1` (its endpoint
names are the manhole id sequence without its last, respectively first,
entry), so every endpoint references an existing manhole id; invert and rim
elevations are strictly decreasing along the chain and the invert always
sits below the rim. -/
theorem claim_C4_network_topology (catchment : CatchmentParams) (numPipes : ℕ)
    (peakRunoff : ℝ) (rnd : ℕ → ℝ) (hr : ∀ k, 0 ≤ rnd k ∧ rnd k < 1) :
    (generateOptimizedNetwork catchment numPipes peakRunoff rnd).manholes.length
        = numPipes + 1 ∧
    (generateOptimizedNetwork catchment numPipes peakRunoff rnd).pipes.length
        = numPipes ∧
    (generateOptimizedNetwork catchment numPipes peakRunoff rnd).pipes.map
        PipeSegment.fromNode =
      ((generateOptimizedNetwork catchment numPipes peakRunoff rnd).manholes.map
        ManHole.id).dropLast ∧
    (generateOptimizedNetwork catchment numPipes peakRunoff rnd).pipes.map
        PipeSegment.toNode =
      ((generateOptimizedNetwork catchment numPipes peakRunoff rnd).manholes.map
        ManHole.id).tail ∧
    (∀ p ∈ (generateOptimizedNetwork catchment numPipes peakRunoff rnd).pipes,
      p.fromNode ∈ (generateOptimizedNetwork catchment numPipes peakRunoff rnd).manholes.map
        ManHole.id ∧
      p.toNode ∈ (generateOptimizedNetwork catchment numPipes peakRunoff rnd).manholes.map
        ManHole.id) ∧
    List.Chain' (fun a b => b.invert < a.invert)
      (generateOptimizedNetwork catchment numPipes peakRunoff rnd).manholes ∧
    List.Chain' (fun a b => b.rim < a.rim)
      (generateOptimizedNetwork catchment numPipes peakRunoff rnd).manholes ∧
    (∀ mh ∈ (generateOptimizedNetwork catchment numPipes peakRunoff rnd).manholes,
      mh.invert < mh.rim) := by
  have hfrom : (generateOptimizedNetwork catchment numPipes peakRunoff rnd).pipes.map
      PipeSegment.fromNode =
      ((generateOptimizedNetwork catchment numPipes peakRunoff rnd).manholes.map
        ManHole.id).dropLast := by
    simp only [generateOptimizedNetwork, List.map_map, map_range_dropLast]
    rfl
  have htail : (generateOptimizedNetwork catchment numPipes peakRunoff rnd).pipes.map
      PipeSegment.toNode =
      ((generateOptimizedNetwork catchment numPipes peakRunoff rnd).manholes.map
        ManHole.id).tail := by
    simp only [generateOptimizedNetwork, List.map_map, map_range_tail]
    rfl
  refine ⟨by simp [generateOptimizedNetwork], by simp [generateOptimizedNetwork],
    hfrom, htail, ?_, ?_, ?_, ?_⟩
  · intro p hp
    constructor
    · exact List.mem_of_mem_dropLast (hfrom ▸ List.mem_map_of_mem PipeSegment.fromNode hp)
    · exact List.mem_of_mem_tail (htail ▸ List.mem_map_of_mem PipeSegment.toNode hp)
  · simp only [generateOptimizedNetwork]
    rw [List.chain'_map, List.chain'_range_succ]
    intro m _
    simp only [mkManhole]
    obtain ⟨hm0, hm1⟩ := hr (3 * m + 2)
    obtain ⟨hs0, hs1⟩ := hr (3 * (m + 1) + 2)
    push_cast
    nlinarith
  · simp only [generateOptimizedNetwork]
    rw [List.chain'_map, List.chain'_range_succ]
    intro m _
    simp only [mkManhole]
    push_cast
    linarith
  · intro mh hmh
    simp only [generateOptimizedNetwork, List.mem_map, List.mem_range] at hmh
    obtain ⟨i, _, rfl⟩ := hmh
    simp only [mkManhole]
    obtain ⟨h0, h1⟩ := hr (3 * i + 2)
    have : (0:ℝ) ≤ (i:ℝ) := Nat.cast_nonneg i
    nlinarith

theorem claim_C4_network_topology_witness :
    (generateOptimizedNetwork sampleCatchment 1 0 (fun _ => 0)).manholes.length = 1 + 1 ∧
    (generateOptimizedNetwork sampleCatchment 1 0 (fun _ => 0)).pipes.length = 1 :=
  ⟨(claim_C4_network_topology sampleCatchment 1 0 (fun _ => 0)
      (fun _ => by norm_num)).1,
   (claim_C4_network_topology sampleCatchment 1 0 (fun _ => 0)
      (fun _ => by norm_num)).2.1⟩

-- ──────────────────────────────────────────
-- C10 — every generated manhole lands in the deep cost class
-- ──────────────────────────────────────────

/-- C10: a generated manhole `i` has depth `3 + 0.2 * i + 0.5 * jitter ≥ 3`,
so `estimateNetworkCost`'s per-manhole depth classification always takes the
deep branch and charges 45000 rupees; the shallow and medium branches are
unreachable on generated networks. -/
theorem claim_C10_deep_manholes (catchment : CatchmentParams) (numPipes : ℕ)
    (peakRunoff : ℝ) (rnd : ℕ → ℝ) (hr : ∀ k, 0 ≤ rnd k ∧ rnd k < 1) :
    ∀ mh ∈ (generateOptimizedNetwork catchment numPipes peakRunoff rnd).manholes,
      3 ≤ mh.rim - mh.invert ∧ manholeCost mh = 45000 := by
  intro mh hmh
  simp only [generateOptimizedNetwork, List.mem_map, List.mem_range] at hmh
  obtain ⟨i, _, rfl⟩ := hmh
  obtain ⟨h0, h1⟩ := hr (3 * i + 2)
  have hi : (0:ℝ) ≤ (i:ℝ) := Nat.cast_nonneg i
  have hdepth : 3 ≤ (mkManhole catchment numPipes peakRunoff rnd i).rim -
      (mkManhole catchment numPipes peakRunoff rnd i).invert := by
    simp only [mkManhole]
    nlinarith
  refine ⟨hdepth, ?_⟩
  simp only [manholeCost]
  rw [if_neg (by linarith), if_neg (by linarith)]
  norm_num [BENGALURU_RATES]

theorem claim_C10_deep_manholes_witness :
    3 ≤ (mkManhole sampleCatchment 1 0 (fun _ => 0) 0).rim -
        (mkManhole sampleCatchment 1 0 (fun _ => 0) 0).invert ∧
    manholeCost (mkManhole sampleCatchment 1 0 (fun _ => 0) 0) = 45000 :=
  claim_C10_deep_manholes sampleCatchment 1 0 (fun _ => 0) (fun _ => by norm_num)
    (mkManhole sampleCatchment 1 0 (fun _ => 0) 0)
    (List.mem_map_of_mem _ (by simp : (0:ℕ) ∈ List.range 2))

-- ──────────────────────────────────────────
-- C3 — shape invariants of the optimizer result
-- ──────────────────────────────────────────

theorem gaFold_conv_length (catchment : CatchmentParams) (numPipes : ℕ)
    (peakRunoff : ℝ) (gnoise : ℕ → ℝ) (gor : ℕ → ℕ → ℝ) (l : List ℕ) (st : GAState) :
    ((l.foldl (gaStep catchment numPipes peakRunoff gnoise gor) st).conv).length
      = st.conv.length + l.length := by
  induction l generalizing st with
  | nil => simp
  | cons g rest ih =>
    rw [List.foldl_cons, ih]
    have hstep : (gaStep catchment numPipes peakRunoff gnoise gor st g).conv.length
        = st.conv.length + 1 := by
      rcases st with ⟨bc, bn, conv⟩
      cases bc
      · simp [gaStep]
      · simp only [gaStep]
        split_ifs <;> simp
    rw [hstep]
    simp only [List.length_cons]
    omega

theorem gaFold_conv_ge (catchment : CatchmentParams) (numPipes : ℕ)
    (peakRunoff : ℝ) (gnoise : ℕ → ℝ) (gor : ℕ → ℕ → ℝ) (l : List ℕ) (st : GAState)
    (h : ∀ x ∈ st.conv, (0.5:ℝ) ≤ x) :
    ∀ x ∈ (l.foldl (gaStep catchment numPipes peakRunoff gnoise gor) st).conv,
      (0.5:ℝ) ≤ x := by
  induction l generalizing st with
  | nil => exact h
  | cons g rest ih =>
    rw [List.foldl_cons]
    apply ih
    intro x hx
    rcases st with ⟨bc, bn, conv⟩
    simp only at h
    cases bc with
    | none =>
      simp only [gaStep, List.mem_append, List.mem_singleton] at hx
      rcases hx with hx | rfl
      · exact h x hx
      · exact le_max_left _ _
    | some b =>
      simp only [gaStep] at hx
      split_ifs at hx <;>
      · simp only [List.mem_append, List.mem_singleton] at hx
        rcases hx with hx | rfl
        · exact h x hx
        · exact le_max_left _ _

theorem gaFold_bestNet (catchment : CatchmentParams) (numPipes : ℕ)
    (peakRunoff : ℝ) (gnoise : ℕ → ℝ) (gor : ℕ → ℕ → ℝ) (l : List ℕ) (st : GAState)
    (h : st.bestNet = none ∨ ∃ k, st.bestNet
        = some (generateOptimizedNetwork catchment numPipes peakRunoff (gor k))) :
    (l.foldl (gaStep catchment numPipes peakRunoff gnoise gor) st).bestNet = none ∨
    ∃ k, (l.foldl (gaStep catchment numPipes peakRunoff gnoise gor) st).bestNet
        = some (generateOptimizedNetwork catchment numPipes peakRunoff (gor k)) := by
  induction l generalizing st with
  | nil => exact h
  | cons g rest ih =>
    rw [List.foldl_cons]
    apply ih
    rcases st with ⟨bc, bn, conv⟩
    cases bc with
    | none => exact Or.inr ⟨g, rfl⟩
    | some b =>
      simp only [gaStep]
      split_ifs
      · exact Or.inr ⟨g, rfl⟩
      · exact h

/-- C3: the optimizer always reports a nonnegative savings figure, an
iteration count equal to the requested generation count, a convergence
trace of exactly that many entries all floored at 0.5, and a network that
was produced by `generateOptimizedNetwork` — even with zero generations,
where the null-coalescing fallback generates it. -/
theorem claim_C3_optimizer_shape (catchment : CatchmentParams)
    (numPipes generations : ℕ) (gnoise : ℕ → ℝ) (gor : ℕ → ℕ → ℝ) :
    0 ≤ (runGeneticOptimizer catchment numPipes generations gnoise gor).savings ∧
    (runGeneticOptimizer catchment numPipes generations gnoise gor).iterations
      = generations ∧
    (runGeneticOptimizer catchment numPipes generations gnoise gor).convergenceData.length
      = generations ∧
    (∀ x ∈ (runGeneticOptimizer catchment numPipes generations gnoise gor).convergenceData,
      (0.5:ℝ) ≤ x) ∧
    ∃ k, (runGeneticOptimizer catchment numPipes generations gnoise gor).network
      = generateOptimizedNetwork catchment numPipes (calcPeakRunoff catchment) (gor k) := by
  refine ⟨?_, rfl, ?_, ?_, ?_⟩
  · simp only [runGeneticOptimizer]
    exact le_max_left 0 _
  · simp only [runGeneticOptimizer]
    rw [gaFold_conv_length]
    simp
  · simp only [runGeneticOptimizer]
    exact gaFold_conv_ge catchment numPipes (calcPeakRunoff catchment) gnoise gor
      (List.range generations) ⟨none, none, []⟩ (by simp)
  · simp only [runGeneticOptimizer]
    rcases gaFold_bestNet catchment numPipes (calcPeakRunoff catchment) gnoise gor
        (List.range generations) ⟨none, none, []⟩ (Or.inl rfl) with h | ⟨k, h⟩
    · exact ⟨generations, by rw [h]; rfl⟩
    · exact ⟨k, by rw [h]; rfl⟩

theorem claim_C3_optimizer_shape_witness :
    (runGeneticOptimizer sampleCatchment 2 1 (fun _ => 0) (fun _ _ => 0)).iterations = 1 :=
  (claim_C3_optimizer_shape sampleCatchment 2 1 (fun _ => 0) (fun _ _ => 0)).2.1

-- ──────────────────────────────────────────
-- C6 — cost breakdown versus the network cost estimator
-- ──────────────────────────────────────────

theorem sum_map_pipeCost (l : List PipeSegment) :
    (l.map pipeCost).sum
      = (l.map (fun p => rateFor (rateMapFor p) p.diameter * p.length)).sum
        + (l.map trenchVol).sum
            * (BENGALURU_RATES.excavation_per_m3 + BENGALURU_RATES.backfill_per_m3)
        + (l.map (fun p => p.length * BENGALURU_RATES.labor_per_day * 0.5)).sum := by
  induction l with
  | nil => simp
  | cons p rest ih =>
    simp only [List.map_cons, List.sum_cons, ih, pipeCost]
    ring

/-- C6 (counterexample): on a concrete network with deep manholes the
breakdown total and `estimateNetworkCost / 100000` differ by far more than
any rounding slack of the one-decimal components (1.6 lakhs of difference
against a generous 0.25 tolerance). -/
theorem claim_C6_cost_breakdown_counterexample :
    ¬ (|(getCostBreakdown cexNetwork).total
        - estimateNetworkCost cexNetwork.pipes cexNetwork.manholes / 100000| ≤ 0.25) := by
  have h1 : estimateNetworkCost cexNetwork.pipes cexNetwork.manholes = 467616 := by
    norm_num [estimateNetworkCost, cexNetwork, cexPipe, cexManhole, pipeCost,
      rateMapFor, rateFor, rateFind, trenchVol, manholeCost, BENGALURU_RATES,
      List.sum_replicate, List.map_replicate]
  have h2 : (getCostBreakdown cexNetwork).total = 3 := by
    have hrs : breakdownTotalRs cexNetwork = 297580 := by
      norm_num [breakdownTotalRs, breakdownPipeMaterial, breakdownExcavation,
        breakdownBackfill, breakdownLabor, breakdownManholes, cexNetwork, cexPipe,
        cexManhole, rateMapFor, rateFor, rateFind, trenchVol, BENGALURU_RATES,
        List.sum_replicate, List.map_replicate]
    have : (getCostBreakdown cexNetwork).total
        = jround (breakdownTotalRs cexNetwork / 100000 * 10) / 10 := rfl
    rw [this, hrs]
    have hfloor : (⌊(297580:ℝ) / 100000 * 10 + 1 / 2⌋ : ℤ) = 30 := by
      rw [Int.floor_eq_iff]
      norm_num
    unfold jround
    rw [hfloor]
    norm_num
  rw [h1, h2]
  norm_num [abs_le]

/-- C6 (amended): `getCostBreakdown` reuses the estimator's pipe-material,
excavation and labor unit rates, but prices backfill as a flat 50 percent of
excavation (175 ₹/m³ of trench rather than the estimator's 180 ₹/m³) and
every manhole at the flat medium rate instead of the estimator's depth
class; consequently the un-rounded breakdown total differs from
`estimateNetworkCost` by exactly 5 ₹ per cubic metre of trench volume plus
the per-manhole depth-class difference, and the reported `total` is that
breakdown total converted to lakhs and rounded to one decimal. -/
theorem claim_C6_cost_breakdown_amended (net : DrainageNetwork) :
    estimateNetworkCost net.pipes net.manholes
      = breakdownTotalRs net + (net.pipes.map trenchVol).sum * 5
        + ((net.manholes.map manholeCost).sum
            - BENGALURU_RATES.manhole_cost_medium * net.manholes.length) ∧
    (getCostBreakdown net).total = jround (breakdownTotalRs net / 100000 * 10) / 10 := by
  refine ⟨?_, rfl⟩
  simp only [estimateNetworkCost, breakdownTotalRs, breakdownPipeMaterial,
    breakdownBackfill, breakdownExcavation, breakdownLabor, breakdownManholes]
  rw [sum_map_pipeCost]
  simp only [List.sum_map_mul_right]
  norm_num [BENGALURU_RATES]
  ring

-- ──────────────────────────────────────────
-- C5 — stored fill ratio of generated pipes
-- ──────────────────────────────────────────

/-- Crude quantitative upper bound on the full-fill Manning capacity at the
default 0.8 fill for any catalog-sized diameter and slope of at most one
percent.  Used to bound a negative fill ratio away from zero. -/
theorem manningsFlow_le_ten_two {dm s : ℝ} (hd0 : 0 < dm) (hd : dm ≤ 1200)
    (hs0 : 0 < s) (hs : s ≤ 1) : manningsFlow dm s 0.8 0.013 ≤ 10.2 := by
  have harc : Real.pi / 2 ≤ Real.arccos (1 - 2 * (0.8:ℝ)) := by
    rw [Real.arccos_eq_pi_div_two_sub_arcsin]
    have h1 : Real.arcsin (1 - 2 * (0.8:ℝ)) ≤ 0 := Real.arcsin_nonpos.mpr (by norm_num)
    linarith
  have hpi3 : (3:ℝ) < Real.pi := Real.pi_gt_three
  have hpi315 : Real.pi < 3.15 := Real.pi_lt_d2
  have harcub : Real.arccos (1 - 2 * (0.8:ℝ)) ≤ Real.pi := Real.arccos_le_pi _
  simp only [manningsFlow]
  set θ : ℝ := 2 * Real.arccos (1 - 2 * (0.8:ℝ)) with hθdef
  have hθ3 : 3 ≤ θ := by rw [hθdef]; linarith
  have hθub : θ ≤ 6.3 := by rw [hθdef]; linarith
  have hθ0 : 0 < θ := by linarith
  have hsinlb : -1 ≤ Real.sin θ := Real.neg_one_le_sin θ
  have hsinlt : Real.sin θ < θ := Real.sin_lt hθ0
  set d : ℝ := dm / 1000 with hddef
  have hd1 : 0 < d := by rw [hddef]; positivity
  have hd2 : d ≤ 1.2 := by rw [hddef]; linarith
  set A : ℝ := d * d / 8 * (θ - Real.sin θ) with hAdef
  set P : ℝ := d / 2 * θ with hPdef
  have hA0 : 0 ≤ A := by
    rw [hAdef]
    exact mul_nonneg (by positivity) (by linarith)
  have hAub : A ≤ 1.314 := by
    rw [hAdef]
    nlinarith
  have hP0 : 0 < P := by
    rw [hPdef]
    exact mul_pos (by positivity) hθ0
  have hRub : A / P ≤ 0.4 := by
    rw [div_le_iff hP0, hAdef, hPdef]
    nlinarith
  have hR0 : 0 ≤ A / P := div_nonneg hA0 hP0.le
  have hR23ub : (A / P) ^ ((2:ℝ)/3) ≤ 1 := Real.rpow_le_one hR0 (by linarith) (by norm_num)
  have hR23nn : 0 ≤ (A / P) ^ ((2:ℝ)/3) := Real.rpow_nonneg hR0 _
  have hS05 : (s / 100) ^ ((0.5:ℝ)) ≤ 0.1 := by
    have h1 : (s / 100 : ℝ) ^ ((0.5:ℝ)) = Real.sqrt (s / 100) := by
      rw [Real.sqrt_eq_rpow]; norm_num
    have h2 : Real.sqrt (s / 100) ≤ Real.sqrt 0.01 := Real.sqrt_le_sqrt (by linarith)
    have h3 : Real.sqrt 0.01 = 0.1 := by
      rw [show (0.01:ℝ) = 0.1 ^ 2 by norm_num, Real.sqrt_sq (by norm_num)]
    linarith [h1 ▸ le_trans h2 (le_of_eq h3)]
  have hS05nn : 0 ≤ (s / 100 : ℝ) ^ ((0.5:ℝ)) := Real.rpow_nonneg (by positivity) _
  have step1 : 1 / 0.013 * A * ((A / P) ^ ((2:ℝ)/3)) * ((s / 100) ^ ((0.5:ℝ)))
      ≤ 1 / 0.013 * A * ((A / P) ^ ((2:ℝ)/3)) * 0.1 :=
    mul_le_mul_of_nonneg_left hS05
      (mul_nonneg (mul_nonneg (by norm_num) hA0) hR23nn)
  have step2 : 1 / 0.013 * A * ((A / P) ^ ((2:ℝ)/3)) * 0.1
      ≤ 1 / 0.013 * A * 1 * 0.1 :=
    mul_le_mul_of_nonneg_right
      (mul_le_mul_of_nonneg_left hR23ub (mul_nonneg (by norm_num) hA0))
      (by norm_num)
  have step3 : 1 / 0.013 * A * 1 * 0.1 ≤ 1 / 0.013 * 1.314 * 1 * 0.1 := by
    nlinarith
  have final : (1 / 0.013 : ℝ) * 1.314 * 1 * 0.1 ≤ 10.2 := by norm_num
  linarith

theorem mkPipe_fillRatio_eq (c : CatchmentParams) (n : ℕ) (q : ℝ)
    (rnd : ℕ → ℝ) (i : ℕ) :
    (mkPipe c n q rnd i).fillRatio
      = round2 (min 0.79 ((q * (1 - (i : ℝ) * 0.05)) /
          manningsFlow
            (selectPipeDiameter (q * (1 - (i : ℝ) * 0.05))
              (max c.slope NBC_CONSTRAINTS.min_slope + rnd (3 * (n + 1) + 2 * i) * 0.5))
            (max c.slope NBC_CONSTRAINTS.min_slope + rnd (3 * (n + 1) + 2 * i) * 0.5))) :=
  rfl

/-- C5 (violation witnessed): with the valid catchment `c5Catchment`
(peak runoff 12.5 m³/s) and 22 pipes, segment 21's design flow
`12.5 * (1 - 21 * 0.05)` is negative, so the stored fill ratio of that pipe
of the generated network is negative — contradicting the documented
`0 - 1` range of `fillRatio` and the claimed `[0, 0.79]` interval. -/
theorem claim_C5_fillRatio_negative :
    mkPipe c5Catchment 22 (calcPeakRunoff c5Catchment) (fun _ => 0) 21
      ∈ (generateOptimizedNetwork c5Catchment 22
          (calcPeakRunoff c5Catchment) (fun _ => 0)).pipes ∧
    (mkPipe c5Catchment 22 (calcPeakRunoff c5Catchment) (fun _ => 0) 21).fillRatio < 0 := by
  constructor
  · exact List.mem_map_of_mem _ (by simp : (21:ℕ) ∈ List.range 22)
  · rw [mkPipe_fillRatio_eq]
    have hQ : calcPeakRunoff c5Catchment = 12.5 := by
      norm_num [calcPeakRunoff, c5Catchment]
    have hseg : calcPeakRunoff c5Catchment * (1 - ((21:ℕ) : ℝ) * 0.05) = -0.625 := by
      rw [hQ]; norm_num
    have hsl : max c5Catchment.slope NBC_CONSTRAINTS.min_slope
        + (fun _ : ℕ => (0:ℝ)) (3 * (22 + 1) + 2 * 21) * 0.5 = 0.5 := by
      norm_num [c5Catchment, NBC_CONSTRAINTS]
    rw [hseg, hsl]
    set D : ℝ := selectPipeDiameter (-0.625) 0.5 with hDdef
    obtain ⟨hD1, hD2⟩ := standard_diameter_bounds D (selectPipeDiameter_mem (-0.625) 0.5)
    have hF0 : 0 < manningsFlow D 0.5 0.8 0.013 :=
      manningsFlow_pos (by linarith) (by norm_num) (by norm_num) (by norm_num)
    have hFle : manningsFlow D 0.5 0.8 0.013 ≤ 10.2 :=
      manningsFlow_le_ten_two (by linarith) hD2 (by norm_num) (by norm_num)
    set F : ℝ := manningsFlow D 0.5 0.8 0.013 with hFdef
    have hinv : (1:ℝ) / 10.2 ≤ 1 / F := one_div_le_one_div_of_le hF0 hFle
    have hdivle : (-0.625:ℝ) / F ≤ -0.625 / 10.2 := by
      have h := mul_le_mul_of_nonpos_left hinv (by norm_num : (-0.625:ℝ) ≤ 0)
      rw [mul_one_div, mul_one_div] at h
      exact h
    have hmin : min (0.79:ℝ) (-0.625 / F) ≤ -0.625 / 10.2 :=
      le_trans (min_le_right _ _) hdivle
    have hjr := jround_le_add_half (min (0.79:ℝ) (-0.625 / F) * 100)
    unfold round2
    have : jround (min (0.79:ℝ) (-0.625 / F) * 100) < 0 := by
      have hb : min (0.79:ℝ) (-0.625 / F) * 100 + 1 / 2 < 0 := by
        have : min (0.79:ℝ) (-0.625 / F) * 100 ≤ (-0.625 / 10.2) * 100 := by nlinarith
        nlinarith
      linarith
    linarith
